import Mathlib

/-!
Verification of the solview telemetry instrumentation pipeline.

This file gives a shallow embedding, in Lean, of the parts of the
repository that the specification's claims talk about:

* `solview/instrumentation/utils.py` — `MemoryProfiler`,
  `generate_delta_metrics`, `_extract_topic_from_args`,
  `_normalize_url_path`;
* `solview/instrumentation/business.py`, `kafka.py`, `http.py` — the
  decorator wrappers (modelled as the executions of their `async def
  wrapper` bodies, with the ambient non-determinism — the memory-sampling
  coin flip, the `tracemalloc` readings, `span.is_recording()` — passed in
  as explicit parameters);
* `solview/metrics/exporters.py` — `SolviewPrometheusMiddleware.dispatch`
  and `get_path_template` (Starlette route matching is modelled for plain
  `{param}` route templates, whose compiled pattern is `[^/]+` per segment);
* `solview/common/masking.py`, `solview/security/masking.py`,
  `solview/solview_logging/masking.py` — the masking engines, on top of an
  executable model of Python's `re.search`/`re.sub` (leftmost backtracking
  match, greedy quantifiers, eager replacement-template validation) for the
  regex subset these modules use; `\d`, `\w`, `\s` are modelled at their
  ASCII meaning, which agrees with Python on the ASCII inputs used here;
* `solview/solview_logging/sinks.py` — `_mask_dict_values` and `ecs_sink`.

Metric side effects are modelled as ordered event lists; a wrapped call's
outcome is a `PyResult` (normal value or exception, an exception being its
type name and message).
-/

namespace Solview

/-! ## Python values, exceptions, calls and `await` -/

/-- A Python value, as far as the instrumentation code inspects values:
`None`, ints, strings, bools, and coroutine objects (a coroutine is what an
`async def` call returns; awaiting it either yields a value or raises). -/
inductive PyVal where
  | pynone
  | int (n : Int)
  | str (s : String)
  | bool (b : Bool)
  | coroOk (v : PyVal)
  | coroExn (ty msg : String)
deriving DecidableEq, Repr

/-- Outcome of running a piece of Python code: a value, or a raised
exception given by its type name and its message (`str(exc)`). -/
inductive PyResult where
  | ok (v : PyVal)
  | exn (ty msg : String)
deriving DecidableEq, Repr

/-- A callable passed to a decorator: either a plain (synchronous) function
or an `async def` function.  The argument list is abstracted to a type
`α`; the payload function gives the result of running the body. -/
inductive PyFunc (α : Type) where
  | sync (f : α → PyResult)
  | async (f : α → PyResult)

/-- `func(*args, **kwargs)`: calling a sync function runs its body; calling
an async function immediately returns a coroutine object. -/
def callPy {α : Type} (f : PyFunc α) (a : α) : PyResult :=
  match f with
  | .sync f => f a
  | .async f =>
      .ok (match f a with
           | .ok v => .coroOk v
           | .exn ty msg => .coroExn ty msg)

/-- `await v`: awaiting a coroutine runs it; awaiting any other value
raises `TypeError` (CPython: "object … can't be used in 'await'
expression"). -/
def awaitPy : PyResult → PyResult
  | .exn ty msg => .exn ty msg
  | .ok (.coroOk v) => .ok v
  | .ok (.coroExn ty msg) => .exn ty msg
  | .ok _ => .exn "TypeError" "object can't be used in 'await' expression"

/-- `await func(*args, **kwargs)`, as written in each wrapper. -/
def awaitCall {α : Type} (f : PyFunc α) (a : α) : PyResult :=
  awaitPy (callPy f a)

/-! ## `MemoryProfiler` (solview/instrumentation/utils.py) -/

/-- State of `MemoryProfiler`: the `enabled` flag and the `_start`/`_end`
readings (bytes traced by `tracemalloc`), `none` when not yet taken. -/
structure MemoryProfiler where
  enabled : Bool
  startBytes : Option Int
  endBytes : Option Int
deriving DecidableEq, Repr

/-- `MemoryProfiler(enabled=...)`. -/
def MemoryProfiler.init (enabled : Bool) : MemoryProfiler :=
  ⟨enabled, none, none⟩

/-- `MemoryProfiler.start`, with the ambient `tracemalloc` reading passed
in: does nothing when disabled, otherwise records `_start`. -/
def MemoryProfiler.startP (p : MemoryProfiler) (traced : Int) : MemoryProfiler :=
  if p.enabled then { p with startBytes := some traced } else p

/-- `MemoryProfiler.stop`: does nothing when disabled or not started,
otherwise records `_end`. -/
def MemoryProfiler.stopP (p : MemoryProfiler) (traced : Int) : MemoryProfiler :=
  if p.enabled ∧ p.startBytes ≠ none then { p with endBytes := some traced } else p

/-- `MemoryProfiler.measure` wrapped around the call: `start()` before,
`stop()` in the `finally` after (both guarded by `enabled`; `stop` runs on
the exception path too).  `t1`, `t2` are the two `tracemalloc` readings. -/
def MemoryProfiler.measureP (p : MemoryProfiler) (t1 t2 : Int) : MemoryProfiler :=
  (p.startP t1).stopP t2

/-- `MemoryProfiler.get_memory_delta`: `None` when disabled or either
measurement is missing, otherwise `max(0, _end - _start)`. -/
def MemoryProfiler.getMemoryDelta (p : MemoryProfiler) : Option Int :=
  match p.enabled, p.startBytes, p.endBytes with
  | true, some s, some e => some (max 0 (e - s))
  | _, _, _ => none

/-! ## Business-operation wrapper (solview/instrumentation/business.py) -/

/-- Span status values set by the wrappers. -/
inductive SpanStatus where
  | ok
  | error (description : String)
deriving DecidableEq, Repr

/-- One observable side effect of the business wrapper, in program order:
Prometheus counter increments / histogram observations (with their label
values) and span operations. -/
inductive BizEvent where
  /-- `BUSINESS_OPERATIONS_TOTAL.labels(operation, app_name, status).inc()` -/
  | totalInc (operation appName status : String)
  /-- `BUSINESS_OPERATIONS_DURATION_SECONDS.labels(...).observe(duration)` -/
  | durationObs (operation appName status : String)
  /-- `BUSINESS_OPERATIONS_MEMORY_SAMPLES_TOTAL.labels(operation, app_name).inc()` -/
  | memSamplesInc (operation appName : String)
  /-- `BUSINESS_OPERATIONS_MEMORY_BYTES.labels(operation, app_name, status).observe(delta)` -/
  | memBytesObs (operation appName status : String) (delta : Int)
  /-- `span.set_attribute(key, value)` -/
  | setAttr (key : String) (v : PyVal)
  /-- `span.record_exception(exc)` -/
  | recordException (ty msg : String)
  /-- `span.set_status(...)` -/
  | setStatus (st : SpanStatus)
deriving DecidableEq, Repr

/-- `generate_delta_metrics` (the nested helper in business.py; the
free-standing copy in utils.py has the identical body with the two metric
families passed as parameters).  Returns the events it emits. -/
def generateDeltaMetrics (profileMemory : Bool) (memoryProfiler : MemoryProfiler)
    (recording : Bool) (status operation appName : String) : List BizEvent :=
  if ¬profileMemory then []
  else
    [.memSamplesInc operation appName] ++
    match memoryProfiler.getMemoryDelta with
    | none =>
        if recording then
          [.setAttr "memory.sampled" (.bool true),
           .setAttr "memory.delta_available" (.bool false)]
        else []
    | some delta =>
        if delta ≤ 0 then
          if recording then
            [.setAttr "memory.sampled" (.bool true),
             .setAttr "memory.delta_bytes" (.int delta),
             .setAttr "memory.delta_ignored" (.bool true)]
          else []
        else
          [.memBytesObs operation appName status delta] ++
          (if recording then
            [.setAttr "memory.delta_bytes" (.int delta),
             .setAttr "memory.sampled" (.bool true),
             .setAttr "memory.delta_ignored" (.bool false),
             .setAttr "memory.delta_available" (.bool true)]
           else [])

/-- Result of one execution of a wrapper body: the ordered side effects and
the outcome delivered to the caller (value returned or exception raised). -/
structure WrapperRun where
  events : List BizEvent
  outcome : PyResult
deriving DecidableEq, Repr

/-- One execution of the body of `business_operation_instrumentation`'s
`async def wrapper` (business.py lines 86–142).

Parameters model the ambient non-determinism: `profileMemory` is the result
of `should_profile_memory()` (the sampling coin flip), `recording` is
`span.is_recording()`, `t1`/`t2` are the `tracemalloc` readings taken by
`measure()`'s `start`/`stop`.  The body awaits `func`, sets the span
status, and in the `finally` block unconditionally increments the total
counter and observes the duration histogram with `status = "success" if
success else "error"`, then calls `generate_delta_metrics`; the `finally`
block contains no `return`, so a captured exception is re-raised. -/
def businessWrapperBody {α : Type} (operation appName : String)
    (profileMemory recording : Bool) (t1 t2 : Int)
    (func : PyFunc α) (args : α) : WrapperRun :=
  let memoryProfiler := MemoryProfiler.init profileMemory
  let preEvents :=
    if recording then [BizEvent.setAttr "memory.sampling.enabled" (.bool profileMemory)]
    else []
  -- `with memory_profiler.measure(): result = await func(*args, **kwargs)`
  let callRes := awaitCall func args
  let memoryProfiler := memoryProfiler.measureP t1 t2
  let success := match callRes with | .ok _ => true | .exn _ _ => false
  let tryEvents :=
    match callRes with
    | .ok _ => [BizEvent.setStatus .ok]
    | .exn ty msg => [BizEvent.recordException ty msg, BizEvent.setStatus (.error msg)]
  let status := if success then "success" else "error"
  let finallyEvents :=
    [BizEvent.totalInc operation appName status,
     BizEvent.durationObs operation appName status] ++
    generateDeltaMetrics profileMemory memoryProfiler recording status operation appName
  { events := preEvents ++ tryEvents ++ finallyEvents, outcome := callRes }

/-- Calling (without awaiting) the wrapped callable: `wrapper` is an
`async def`, so the call returns a coroutine object wrapping the body. -/
def businessWrapped {α : Type} (operation appName : String)
    (profileMemory recording : Bool) (t1 t2 : Int)
    (func : PyFunc α) (args : α) : PyResult :=
  .ok (match (businessWrapperBody operation appName profileMemory recording t1 t2 func args).outcome with
       | .ok v => .coroOk v
       | .exn ty msg => .coroExn ty msg)

/-! ## `_extract_topic_from_args` (solview/instrumentation/utils.py) -/

/-- A positional argument as inspected by `_extract_topic_from_args`:
either a plain value (`isinstance(candidate, str)` looks at it), or an
object that does / does not expose a `topic` attribute. -/
inductive KafkaArg where
  | val (v : PyVal)
  | objWithTopic (topic : PyVal)
  | objPlain
deriving DecidableEq, Repr

/-- `_extract_topic_from_args(args, kwargs)`: start from
`kwargs.get("topic", "unknown")`; if that is `"unknown"` and there are at
least two positional args, take `args[1].topic` when the attribute exists,
else `args[1]` itself when it is a string; finally return the topic unless
it is still `"unknown"`, in which case return `"all_topics"`. -/
def extractTopicFromArgs (args : List KafkaArg) (kwargsTopic : Option PyVal) : PyVal :=
  let topic := kwargsTopic.getD (.str "unknown")
  let topic :=
    if topic = .str "unknown" ∧ args.length > 1 then
      match args.get? 1 with
      | some (.objWithTopic t) => t
      | some (.val (.str s)) => .str s
      | _ => topic
    else topic
  if topic ≠ .str "unknown" then topic else .str "all_topics"

/-! ## Kafka producer wrapper (solview/instrumentation/kafka.py) -/

/-- Side effects of the kafka producer wrapper.  The `topic` label is the
value of `bound.arguments.get("topic")` (`none` models Python `None`). -/
inductive KafkaEvent where
  /-- `KAFKA_PRODUCER_ERRORS_TOTAL.labels(topic, error_type, app_name).inc()` -/
  | producerErrorsInc (topic : Option PyVal) (errorType appName : String)
  /-- `KAFKA_MESSAGES_PRODUCED_TOTAL.labels(topic, app_name).inc()` -/
  | messagesProducedInc (topic : Option PyVal) (appName : String)
  /-- `KAFKA_PRODUCER_DURATION_SECONDS.labels(topic, app_name, status).observe(duration)` -/
  | producerDurationObs (topic : Option PyVal) (appName status : String)
  /-- `KAFKA_PRODUCER_MEMORY_SAMPLES_TOTAL.labels(topic, app_name).inc()` -/
  | producerMemSamplesInc (topic : Option PyVal) (appName : String)
  /-- `KAFKA_PRODUCER_MEMORY_BYTES.labels(topic, app_name, status).observe(delta)` -/
  | producerMemBytesObs (topic : Option PyVal) (appName status : String) (delta : Int)
  /-- `span.set_attribute(key, value)` (also the attributes the span is opened with) -/
  | setAttr (key : String) (v : Option PyVal)
  /-- `span.record_exception(exc)` -/
  | recordException (ty msg : String)
  /-- `span.set_status(...)` -/
  | setStatus (st : SpanStatus)
deriving DecidableEq, Repr

/-- Result of one execution of the kafka producer wrapper body. -/
structure KafkaRun where
  events : List KafkaEvent
  outcome : PyResult
deriving DecidableEq, Repr

/-- One execution of the body of `kafka_producer_instrumentation`'s
`async def wrapper` (kafka.py lines 51–152).

`bound` is the outcome of `inspect.signature(func).bind(*args, **kwargs)`:
`none` models a `TypeError` from `bind` (arguments not matching the
signature), raised before anything else happens; `some (topic?, key)`
carries `bound.arguments.get("topic")` and `bound.arguments.get("key", "")`.

The `finally` block of the source contains `return result` statements on
the `not profile_memory`, `delta is None` and `delta <= 0` paths; a
`return` inside `finally` discards any in-flight exception, so on those
paths the wrapper returns `result` (which is still `None` when `func`
raised) instead of re-raising. -/
def kafkaProducerWrapperBody {α : Type} (operation appName : String)
    (profileMemory recording : Bool) (t1 t2 : Int)
    (bound : Option (Option PyVal × PyVal))
    (func : PyFunc α) (args : α) : KafkaRun :=
  match bound with
  | none => { events := [], outcome := .exn "TypeError" "missing a required argument" }
  | some (topic, key) =>
    let memoryProfiler := (MemoryProfiler.init profileMemory).measureP t1 t2
    let openEvents : List KafkaEvent :=
      [.setAttr "messaging.system" (some (.str "kafka")),
       .setAttr "messaging.destination" topic,
       .setAttr "messaging.operation" (some (.str operation)),
       .setAttr "messaging.kafka.message_key" (some key)] ++
      (if recording then [.setAttr "memory.sampling.enabled" (some (.bool profileMemory))]
       else [])
    let callRes := awaitCall func args
    let success := match callRes with | .ok _ => true | .exn _ _ => false
    -- `result` is only assigned on the success path; it stays `None` otherwise
    let result : PyVal := match callRes with | .ok v => v | .exn _ _ => .pynone
    let tryEvents :=
      match callRes with
      | .ok _ => [KafkaEvent.setStatus .ok]
      | .exn ty msg =>
          [.producerErrorsInc topic ty appName,
           .recordException ty msg,
           .setStatus (.error msg)]
    let status := if success then "success" else "error"
    let finallyBase :=
      (if success then [KafkaEvent.messagesProducedInc topic appName] else []) ++
      [KafkaEvent.producerDurationObs topic appName status]
    if ¬profileMemory then
      -- `if not profile_memory: return result`  (inside `finally`)
      { events := openEvents ++ tryEvents ++ finallyBase, outcome := .ok result }
    else
      let finallyBase := finallyBase ++ [KafkaEvent.producerMemSamplesInc topic appName]
      match memoryProfiler.getMemoryDelta with
      | none =>
          -- `if delta is None: ...; return result`  (inside `finally`)
          { events := openEvents ++ tryEvents ++ finallyBase ++
              (if recording then
                [.setAttr "memory.sampled" (some (.bool true)),
                 .setAttr "memory.delta_available" (some (.bool false))]
               else []),
            outcome := .ok result }
      | some delta =>
          if delta ≤ 0 then
            -- `if delta <= 0: ...; return result`  (inside `finally`)
            { events := openEvents ++ tryEvents ++ finallyBase ++
                (if recording then
                  [.setAttr "memory.sampled" (some (.bool true)),
                   .setAttr "memory.delta_bytes" (some (.int delta)),
                   .setAttr "memory.delta_ignored" (some (.bool true))]
                 else []),
              outcome := .ok result }
          else
            -- `finally` runs to completion: an exception propagates,
            -- otherwise control reaches the trailing `return result`
            { events := openEvents ++ tryEvents ++ finallyBase ++
                [.producerMemBytesObs topic appName status delta] ++
                (if recording then
                  [.setAttr "memory.sampled" (some (.bool true)),
                   .setAttr "memory.delta_bytes" (some (.int delta)),
                   .setAttr "memory.delta_available" (some (.bool true)),
                   .setAttr "memory.delta_ignored" (some (.bool false))]
                 else []),
              outcome := callRes }

/-! ## An executable model of Python's `re` for the patterns these modules use

Patterns are transcribed, node for node, from the literal pattern strings
in the source; each transcription carries the original pattern in its doc
comment.  Matching is Python's leftmost backtracking search: alternatives
are tried left to right, quantifiers are greedy, `\b` is a word boundary,
`$` matches at the end of the string or before a trailing newline.
`re.sub` validates the replacement template (group references against the
pattern's group count) before scanning, and raises `re.error("invalid
group reference …")` on the first invalid reference even when the pattern
has no match. -/

/-- Regex abstract syntax: empty, single-character class, sequencing,
alternation, numbered capturing group, bounded/unbounded greedy repetition
(`hi = none` means no upper bound), word boundary `\b`, and `$`. -/
inductive RE where
  | eps
  | cls (p : Char → Bool)
  | seq (a b : RE)
  | alt (a b : RE)
  | group (idx : Nat) (r : RE)
  | rep (lo : Nat) (hi : Option Nat) (r : RE)
  | wordB
  | lineEnd

/-- `\w` at its ASCII meaning: letters, digits, underscore. -/
def pyWord (c : Char) : Bool :=
  c.isAlpha || c.isDigit || c = '_'

/-- Python `str.upper()` (ASCII). -/
def pyUpper (s : String) : String := ⟨s.data.map Char.toUpper⟩

/-- Python `str.lower()` (ASCII). -/
def pyLower (s : String) : String := ⟨s.data.map Char.toLower⟩

/-- `\s` at its ASCII meaning. -/
def pySpace (c : Char) : Bool :=
  c = ' ' || c = '\t' || c = '\n' || c = '\r' || c = '\x0b' || c = '\x0c'

/-- Matcher state: `left` holds the consumed characters in reverse (head =
the character just before the current position, needed for `\b`), `rest`
the characters still to match, `caps` the captured groups (most recent
first). -/
structure MSt where
  left : List Char
  rest : List Char
  caps : List (Nat × List Char)

/-- Backtracking matcher in continuation-passing style.  `k` receives the
state after `r` matched; the result is the first success in Python's
preference order (leftmost alternatives first, greedy repetition longest
first).  `fuel` bounds repetition unrollings; every repetition body in the
patterns modelled here consumes at least one character per iteration, and
a zero-width repetition iteration is cut off (as CPython cuts empty
repeats), so `input length + pattern size` fuel is always sufficient. -/
def reMatch : Nat → RE → MSt → (MSt → Option MSt) → Option MSt
  | 0, _, _, _ => none
  | fuel + 1, r, st, k =>
      match r with
      | .eps => k st
      | .cls p =>
          match st.rest with
          | c :: rs => if p c then k ⟨c :: st.left, rs, st.caps⟩ else none
          | [] => none
      | .wordB =>
          let pw := match st.left with | c :: _ => pyWord c | [] => false
          let nw := match st.rest with | c :: _ => pyWord c | [] => false
          if pw ≠ nw then k st else none
      | .lineEnd =>
          match st.rest with
          | [] => k st
          | [c] => if c = '\n' then k st else none
          | _ => none
      | .seq a b =>
          reMatch fuel a st (fun st2 => reMatch fuel b st2 k)
      | .alt a b =>
          match reMatch fuel a st k with
          | some res => some res
          | none => reMatch fuel b st k
      | .group i r =>
          reMatch fuel r st (fun st2 =>
            k { st2 with caps := (i, st.rest.take (st.rest.length - st2.rest.length)) :: st2.caps })
      | .rep (lo + 1) hi r =>
          reMatch fuel r st (fun st2 => reMatch fuel (.rep lo (hi.map (· - 1)) r) st2 k)
      | .rep 0 hi r =>
          if hi = some 0 then k st
          else
            match reMatch fuel r st (fun st2 =>
                if st2.rest.length < st.rest.length then
                  reMatch fuel (.rep 0 (hi.map (· - 1)) r) st2 k
                else none) with
            | some res => some res
            | none => k st

/-- Fuel that is always sufficient for `reMatch` on these patterns: the
nesting depth of `reMatch` calls is bounded by the pattern's sequential
length plus two per repetition iteration, and every iteration of every
repetition in the modelled patterns consumes at least one character. -/
def reFuel (rest : List Char) : Nat := 4 * rest.length + 512

/-- Leftmost search: try a match at the current position, else advance one
character; returns the state at the match start (its `left`/`rest`) and
the final matcher state. -/
def scanMatch (r : RE) : List Char → List Char → Option (List Char × List Char × MSt)
  | left, rest =>
      match reMatch (reFuel rest) r ⟨left, rest, []⟩ some with
      | some st => some (left, rest, st)
      | none =>
          match rest with
          | [] => none
          | c :: rs => scanMatch r (c :: left) rs

/-- `pattern.search(s) is not None`. -/
def reSearchB (r : RE) (s : String) : Bool :=
  (scanMatch r [] s.data).isSome

/-- One item of a replacement template: literal text or a group reference
`\n`. -/
inductive TItem where
  | lit (s : String)
  | ref (n : Nat)

/-- Expand a replacement template against the captures of a match. -/
def expandTemplate (tmpl : List TItem) (caps : List (Nat × List Char)) : List Char :=
  tmpl.foldr
    (fun it acc =>
      (match it with
       | .lit s => s.data
       | .ref n => (((caps.find? (fun q => q.1 = n)).map (fun q => q.2)).getD [])) ++ acc)
    []

/-- Number of capturing groups of a pattern. -/
def RE.groupCount : RE → Nat
  | .eps | .cls _ | .wordB | .lineEnd => 0
  | .seq a b | .alt a b => a.groupCount + b.groupCount
  | .group _ r => r.groupCount + 1
  | .rep _ _ r => r.groupCount

/-- First group reference in a template that exceeds the pattern's group
count (the reference CPython's template compiler rejects), if any. -/
def firstBadRef (g : Nat) : List TItem → Option Nat
  | [] => none
  | .lit _ :: rest => firstBadRef g rest
  | .ref n :: rest => if g < n then some n else firstBadRef g rest

/-- The `re.error` cases the modelled code can hit. -/
inductive ReErr where
  | invalidGroupReference (n : Nat)
deriving DecidableEq, Repr

/-- The global-replacement loop of `re.sub`: repeatedly find the leftmost
match, emit the expanded template, continue after the match (forcing one
character of progress on a zero-width match, as CPython does).  `fuel`
exceeds the remaining length, so it never runs out. -/
def subLoop (r : RE) (tmpl : List TItem) : Nat → List Char → List Char → List Char
  | 0, _, rest => rest
  | fuel + 1, left, rest =>
      match scanMatch r left rest with
      | none => rest
      | some (_, mRest, st) =>
          let pre := rest.take (rest.length - mRest.length)
          let matchedLen := mRest.length - st.rest.length
          if matchedLen = 0 then
            match st.rest with
            | [] => pre ++ expandTemplate tmpl st.caps
            | c :: rs =>
                pre ++ expandTemplate tmpl st.caps ++ c ::
                  subLoop r tmpl fuel (c :: st.left) rs
          else
            pre ++ expandTemplate tmpl st.caps ++ subLoop r tmpl fuel st.left st.rest

/-- `re.sub(pattern, repl, s)`: validate the template eagerly (before any
matching), then replace every match. -/
def pyReSub (r : RE) (tmpl : List TItem) (s : String) : Except ReErr String :=
  match firstBadRef r.groupCount tmpl with
  | some n => .error (.invalidGroupReference n)
  | none => .ok ⟨subLoop r tmpl (s.data.length + 1) [] s.data⟩

/-! ### Pattern-building shorthand -/

/-- Sequence a list of regexes. -/
def rSeq (l : List RE) : RE := l.foldr .seq .eps

/-- A single literal character. -/
def rChar (c : Char) : RE := .cls (· = c)

/-- A literal string. -/
def rLit (s : String) : RE := rSeq (s.data.map rChar)

/-- `{n}` -/
def rTimes (n : Nat) (r : RE) : RE := .rep n (some n) r

/-- `{lo,hi}` -/
def rRange (lo hi : Nat) (r : RE) : RE := .rep lo (some hi) r

/-- `{lo,}` -/
def rAtLeast (lo : Nat) (r : RE) : RE := .rep lo none r

/-- `?` -/
def rOpt (r : RE) : RE := .rep 0 (some 1) r

/-- `*` -/
def rStar (r : RE) : RE := .rep 0 none r

/-- `+` -/
def rPlus (r : RE) : RE := .rep 1 none r

/-- `\d` -/
def rD : RE := .cls Char.isDigit

/-- `\w` -/
def rW : RE := .cls pyWord

/-- `\s` -/
def rS : RE := .cls pySpace

/-- `[\w\.-]` (email domain characters). -/
def emailDomChar (c : Char) : Bool := pyWord c || c = '.' || c = '-'

/-- `[A-Za-z0-9\-_]` (bearer-token / JWT-segment characters). -/
def bearerTokChar (c : Char) : Bool := c.isAlpha || c.isDigit || c = '-' || c = '_'

/-- `[A-Za-z0-9+/]` (basic-auth token characters). -/
def basicTokChar (c : Char) : Bool := c.isAlpha || c.isDigit || c = '+' || c = '/'

/-! ## Shared masking patterns

These patterns appear verbatim in `solview/common/masking.py` (function
`mask_sensitive_data`) and `solview/solview_logging/masking.py`
(`DataMasker.mask_sensitive_data`); the two modules differ only in their
sixth rule, see below. -/

/-- `\b(\d{3})\d{6}(\d{2})\b` (CPF without mask). -/
def patCpfBare : RE :=
  rSeq [.wordB, .group 1 (rTimes 3 rD), rTimes 6 rD, .group 2 (rTimes 2 rD), .wordB]

/-- Replacement `\1.XXX.XXX-\2`. -/
def tmplCpf : List TItem := [.ref 1, .lit ".XXX.XXX-", .ref 2]

/-- `\b(\d{3})\.\d{3}\.\d{3}-(\d{2})\b` (CPF with mask). -/
def patCpfFormatted : RE :=
  rSeq [.wordB, .group 1 (rTimes 3 rD), rChar '.', rTimes 3 rD, rChar '.', rTimes 3 rD,
        rChar '-', .group 2 (rTimes 2 rD), .wordB]

/-- `\b(\d{2})\d{10}(\d{2})\b` (CNPJ without mask). -/
def patCnpjBare : RE :=
  rSeq [.wordB, .group 1 (rTimes 2 rD), rTimes 10 rD, .group 2 (rTimes 2 rD), .wordB]

/-- Replacement `\1.XXX.XXX/XXXX-\2`. -/
def tmplCnpj : List TItem := [.ref 1, .lit ".XXX.XXX/XXXX-", .ref 2]

/-- `\b(\d{2})\.\d{3}\.\d{3}/\d{4}-(\d{2})\b` (CNPJ with mask). -/
def patCnpjFormatted : RE :=
  rSeq [.wordB, .group 1 (rTimes 2 rD), rChar '.', rTimes 3 rD, rChar '.', rTimes 3 rD,
        rChar '/', rTimes 4 rD, rChar '-', .group 2 (rTimes 2 rD), .wordB]

/-- `\b(\d{2})\d{4,5}(\d{4})\b` (phone without mask). -/
def patPhoneBare : RE :=
  rSeq [.wordB, .group 1 (rTimes 2 rD), rRange 4 5 rD, .group 2 (rTimes 4 rD), .wordB]

/-- Replacement `\1*****\2`. -/
def tmplPhone : List TItem := [.ref 1, .lit "*****", .ref 2]

/-- `\b(\(\d{2}\))\s?\d{4,5}-\d{4}\b` (phone with mask — the
solview_logging version, whose parentheses are escaped and grouped). -/
def patPhoneFormattedLogging : RE :=
  rSeq [.wordB, .group 1 (rSeq [rChar '(', rTimes 2 rD, rChar ')']), rOpt rS,
        rRange 4 5 rD, rChar '-', rTimes 4 rD, .wordB]

/-- Replacement `\1 XXXXX-XXXX`. -/
def tmplPhoneFormatted : List TItem := [.ref 1, .lit " XXXXX-XXXX"]

/-- `\b$$\d{2}$$\s?\d{4,5}-\d{4}\b` — the phone-with-mask pattern of
`solview/common/masking.py` line 22.  Here `$$` is two `$` end anchors
(not escaped parentheses), so the pattern has **zero** capturing groups,
while its replacement `\1 XXXXX-XXXX` references group 1. -/
def patPhoneFormattedCommon : RE :=
  rSeq [.wordB, .lineEnd, .lineEnd, rTimes 2 rD, .lineEnd, .lineEnd, rOpt rS,
        rRange 4 5 rD, rChar '-', rTimes 4 rD, .wordB]

/-- `\b(\w{3})\w*(@[\w\.-]+\b)` (e-mail: keep the first three word
characters of the local part; note the closing `\b` sits inside group 2). -/
def patEmail3 : RE :=
  rSeq [.wordB, .group 1 (rTimes 3 rW), rStar rW,
        .group 2 (rSeq [rChar '@', rPlus (.cls emailDomChar), .wordB])]

/-- Replacement `\1***\2`. -/
def tmplEmail3 : List TItem := [.ref 1, .lit "***", .ref 2]

/-! ## `DataMasker.mask_sensitive_data` (solview/solview_logging/masking.py) -/

/-- The seven sequential `re.sub` calls in
`DataMasker.mask_sensitive_data` (lines 59–71), in source order. -/
def dataMaskerSub (s : String) : Except ReErr String := do
  let s ← pyReSub patCpfBare tmplCpf s
  let s ← pyReSub patCpfFormatted tmplCpf s
  let s ← pyReSub patCnpjBare tmplCnpj s
  let s ← pyReSub patCnpjFormatted tmplCnpj s
  let s ← pyReSub patPhoneBare tmplPhone s
  let s ← pyReSub patPhoneFormattedLogging tmplPhoneFormatted s
  let s ← pyReSub patEmail3 tmplEmail3 s
  return s

/-- The value `DataMasker.mask_sensitive_data` computes for a string; all
seven replacement templates of the logging masker are valid for their
patterns, so `dataMaskerSub` never errors (`dataMaskerSub_ok` below) and
the error fallback here is unreachable. -/
def dmRun (s : String) : String :=
  match dataMaskerSub s with
  | .ok t => t
  | .error _ => s

/-- `DataMasker.mask_sensitive_data(text)`: identity when `ignore_mask` is
set or the input is not a string. -/
def dataMaskerMask (ignoreMask : Bool) (v : PyVal) : PyVal :=
  if ignoreMask then v
  else match v with
       | .str s => .str (dmRun s)
       | v => v

/-! ## `mask_sensitive_data` (solview/common/masking.py) -/

/-- The seven sequential `re.sub` calls in the common
`mask_sensitive_data` (lines 13–25), in source order; the sixth rule is
the broken `\b$$\d{2}$$\s?\d{4,5}-\d{4}\b` with replacement
`\1 XXXXX-XXXX`. -/
def commonMaskSub (s : String) : Except ReErr String := do
  let s ← pyReSub patCpfBare tmplCpf s
  let s ← pyReSub patCpfFormatted tmplCpf s
  let s ← pyReSub patCnpjBare tmplCnpj s
  let s ← pyReSub patCnpjFormatted tmplCnpj s
  let s ← pyReSub patPhoneBare tmplPhone s
  let s ← pyReSub patPhoneFormattedCommon tmplPhoneFormatted s
  let s ← pyReSub patEmail3 tmplEmail3 s
  return s

/-- `mask_sensitive_data(text)` of solview/common/masking.py: non-strings
are returned unchanged before any rule runs; a string goes through the
seven `re.sub` calls, any of which may raise `re.error`. -/
def commonMaskSensitiveData (v : PyVal) : Except ReErr PyVal :=
  match v with
  | .str s => (commonMaskSub s).map .str
  | v => .ok v

/-! ## `EnhancedDataMasking` (solview/security/masking.py) -/

/-- A masking rule as configured by `_initialize_default_rules`: its
pattern, replacement template and `enabled` flag (`name`, `description`
and `compliance` do not affect `mask_text`). -/
structure SecRule where
  name : String
  pattern : RE
  repl : List TItem
  enabled : Bool

/-- The sixteen default rules of `EnhancedDataMasking`, in registration
(= dict insertion = application) order, transcribed from
`_initialize_default_rules` (security/masking.py lines 35–167).  Original
pattern strings are quoted in the comments. -/
def secRules : List SecRule := [
  -- cpf: \b(\d{3})\d{6}(\d{2})\b  ->  \1.XXX.XXX-\2
  ⟨"cpf", patCpfBare, tmplCpf, true⟩,
  -- cpf_formatted: \b(\d{3})\.\d{3}\.\d{3}-(\d{2})\b  ->  \1.XXX.XXX-\2
  ⟨"cpf_formatted", patCpfFormatted, tmplCpf, true⟩,
  -- cnpj: \b(\d{2})\d{10}(\d{2})\b  ->  \1.XXX.XXX/XXXX-\2
  ⟨"cnpj", patCnpjBare, tmplCnpj, true⟩,
  -- credit_card: \b(\d{4})\s?-?\s?(\d{4})\s?-?\s?(\d{4})\s?-?\s?(\d{4})\b  ->  \1-XXXX-XXXX-\4
  ⟨"credit_card",
   rSeq [.wordB, .group 1 (rTimes 4 rD), rOpt rS, rOpt (rChar '-'), rOpt rS,
         .group 2 (rTimes 4 rD), rOpt rS, rOpt (rChar '-'), rOpt rS,
         .group 3 (rTimes 4 rD), rOpt rS, rOpt (rChar '-'), rOpt rS,
         .group 4 (rTimes 4 rD), .wordB],
   [.ref 1, .lit "-XXXX-XXXX-", .ref 4], true⟩,
  -- api_key_bearer: (Bearer\s+)([A-Za-z0-9\-_]{10,})  ->  \1***MASKED***
  ⟨"api_key_bearer",
   rSeq [.group 1 (rSeq [rLit "Bearer", rPlus rS]), .group 2 (rAtLeast 10 (.cls bearerTokChar))],
   [.ref 1, .lit "***MASKED***"], true⟩,
  -- api_key_basic: (Basic\s+)([A-Za-z0-9+/]{10,}={0,2})  ->  \1***MASKED***
  ⟨"api_key_basic",
   rSeq [.group 1 (rSeq [rLit "Basic", rPlus rS]),
         .group 2 (rSeq [rAtLeast 10 (.cls basicTokChar), rRange 0 2 (rChar '=')])],
   [.ref 1, .lit "***MASKED***"], true⟩,
  -- jwt_token: \b(eyJ[A-Za-z0-9\-_]{10,}\.[A-Za-z0-9\-_]{10,}\.[A-Za-z0-9\-_]{10,})\b
  ⟨"jwt_token",
   rSeq [.wordB, .group 1 (rSeq [rLit "eyJ", rAtLeast 10 (.cls bearerTokChar), rChar '.',
         rAtLeast 10 (.cls bearerTokChar), rChar '.', rAtLeast 10 (.cls bearerTokChar)]), .wordB],
   [.lit "***JWT_TOKEN_MASKED***"], true⟩,
  -- password_field: ("password"\s*:\s*")([^"]+)(")  ->  \1***MASKED***\3
  ⟨"password_field",
   rSeq [.group 1 (rSeq [rChar '"', rLit "password", rChar '"', rStar rS, rChar ':',
         rStar rS, rChar '"']), .group 2 (rPlus (.cls (· ≠ '"'))), .group 3 (rChar '"')],
   [.ref 1, .lit "***MASKED***", .ref 3], true⟩,
  -- password_query: ([?&]password=)([^&\s]+)  ->  \1***MASKED***
  ⟨"password_query",
   rSeq [.group 1 (rSeq [.cls (fun c => c = '?' || c = '&'), rLit "password="]),
         .group 2 (rPlus (.cls (fun c => ¬(c = '&' || pySpace c))))],
   [.ref 1, .lit "***MASKED***"], true⟩,
  -- email: \b(\w{1,2})[^@]*(@[\w\.-]+)\b  ->  \1***\2
  ⟨"email",
   rSeq [.wordB, .group 1 (rRange 1 2 rW), rStar (.cls (· ≠ '@')),
         .group 2 (rSeq [rChar '@', rPlus (.cls emailDomChar)]), .wordB],
   [.ref 1, .lit "***", .ref 2], true⟩,
  -- phone_br: \b(\d{2})\d{4,5}(\d{4})\b  ->  \1*****\2
  ⟨"phone_br", patPhoneBare, tmplPhone, true⟩,
  -- phone_international: \+(\d{1,3})\s?(\d{2,3})\s?\d{6,8}  ->  +\1 \2 ******
  ⟨"phone_international",
   rSeq [rChar '+', .group 1 (rRange 1 3 rD), rOpt rS, .group 2 (rRange 2 3 rD), rOpt rS,
         rRange 6 8 rD],
   [.lit "+", .ref 1, .lit " ", .ref 2, .lit " ******"], true⟩,
  -- ipv4 (enabled=False): \b(\d{1,3}\.\d{1,3})\.\d{1,3}\.\d{1,3}\b  ->  \1.XXX.XXX
  ⟨"ipv4",
   rSeq [.wordB, .group 1 (rSeq [rRange 1 3 rD, rChar '.', rRange 1 3 rD]), rChar '.',
         rRange 1 3 rD, rChar '.', rRange 1 3 rD, .wordB],
   [.ref 1, .lit ".XXX.XXX"], false⟩,
  -- bank_account: \b(\d{4,6})-(\d)(\d{6,12})-(\d)\b  ->  \1-\2XXXXXX-\4
  ⟨"bank_account",
   rSeq [.wordB, .group 1 (rRange 4 6 rD), rChar '-', .group 2 rD, .group 3 (rRange 6 12 rD),
         rChar '-', .group 4 rD, .wordB],
   [.ref 1, .lit "-", .ref 2, .lit "XXXXXX-", .ref 4], true⟩,
  -- ssn: \b(\d{3})-?(\d{2})-?(\d{4})\b  ->  \1-XX-\3
  ⟨"ssn",
   rSeq [.wordB, .group 1 (rTimes 3 rD), rOpt (rChar '-'), .group 2 (rTimes 2 rD),
         rOpt (rChar '-'), .group 3 (rTimes 4 rD), .wordB],
   [.ref 1, .lit "-XX-", .ref 3], true⟩,
  -- secret_key: ("(?:secret|key|token|password)"\s*:\s*")([^"]+)(")  ->  \1***MASKED***\3
  ⟨"secret_key",
   rSeq [.group 1 (rSeq [rChar '"',
           .alt (rLit "secret") (.alt (rLit "key") (.alt (rLit "token") (rLit "password"))),
           rChar '"', rStar rS, rChar ':', rStar rS, rChar '"']),
         .group 2 (rPlus (.cls (· ≠ '"'))), .group 3 (rChar '"')],
   [.ref 1, .lit "***MASKED***", .ref 3], true⟩]

/-- One iteration of the rule loop in `EnhancedDataMasking.mask_text`:
skip disabled rules; if the pattern finds a match, substitute — any
exception from a rule is caught and that rule is skipped (`try/except`
around compile/search/sub, lines 200–214). -/
def secApplyRule (text : String) (rule : SecRule) : String :=
  if ¬rule.enabled then text
  else if reSearchB rule.pattern text then
    match pyReSub rule.pattern rule.repl text with
    | .ok t => t
    | .error _ => text
  else text

/-- `EnhancedDataMasking.mask_text(text)` with the default rule set:
non-strings are returned unchanged; a string goes through every enabled
rule in registration order. -/
def maskText (v : PyVal) : PyVal :=
  match v with
  | .str s => .str (secRules.foldl secApplyRule s)
  | v => v

/-! ## `urllib.parse.urlparse` (subset) and `_normalize_url_path` -/

/-- The components of `urlparse` the http wrapper reads. -/
structure ParsedUrl where
  scheme : String
  netloc : String
  path : String
  query : String
deriving DecidableEq, Repr

/-- Characters allowed in a URL scheme after the leading letter. -/
def schemeChar (c : Char) : Bool :=
  c.isAlpha || c.isDigit || c = '+' || c = '-' || c = '.'

/-- Split `l` at the first character satisfying `p`: returns the part
before it and the remainder starting at it. -/
def splitAtFirst (p : Char → Bool) : List Char → List Char × List Char
  | [] => ([], [])
  | c :: rest =>
      if p c then ([], c :: rest)
      else
        let (a, b) := splitAtFirst p rest
        (c :: a, b)

/-- `urllib.parse.urlparse(url)` for URLs without fragments or params:
a leading `scheme:` (letter followed by letters/digits/`+-.`) is split off
and lowercased; a netloc is present only after `//` and runs to the next
`/` or `?`; the rest is split into path and query at the first `?`. -/
def pyUrlparse (url : String) : ParsedUrl :=
  let cs := url.data
  let (scheme, rest) :=
    match splitAtFirst (fun c => ¬schemeChar c) cs with
    | (pre, ':' :: after) =>
        match pre with
        | c :: _ => if c.isAlpha then (pre.map Char.toLower, after) else ([], cs)
        | [] => ([], cs)
    | _ => ([], cs)
  let (netloc, rest) :=
    match rest with
    | '/' :: '/' :: after => splitAtFirst (fun c => c = '/' || c = '?') after
    | _ => ([], rest)
  let (path, query) :=
    match splitAtFirst (fun c => c = '?') rest with
    | (p, _ :: q) => (p, q)
    | (p, []) => (p, [])
  ⟨⟨scheme⟩, ⟨netloc⟩, ⟨path⟩, ⟨query⟩⟩

/-- `re.sub` for a template without group references (such a call cannot
raise; the error fallback is unreachable). -/
def pyReSubNoRef (r : RE) (tmpl : List TItem) (s : String) : String :=
  match pyReSub r tmpl s with
  | .ok t => t
  | .error _ => s

/-- `[0-9a-f]` with `re.IGNORECASE`. -/
def hexChar (c : Char) : Bool :=
  c.isDigit || ('a' ≤ c ∧ c ≤ 'f') || ('A' ≤ c ∧ c ≤ 'F')

/-- `_normalize_url_path` (utils.py lines 77–88): replace `/\d+` by
`/{id}`, then `/`-prefixed UUIDs by `/{uuid}`, 24-hex-digit ids by
`/{object_id}`, 32-hex-digit ids by `/{hash}` (the latter three with
`re.IGNORECASE`), and finally keep only the part before the first `?`. -/
def normalizeUrlPath (urlPath : String) : String :=
  let n := pyReSubNoRef (rSeq [rChar '/', rPlus rD]) [.lit "/\x7bid\x7d"] urlPath
  let n := pyReSubNoRef
    (rSeq [rChar '/', rTimes 8 (.cls hexChar), rChar '-', rTimes 4 (.cls hexChar),
           rChar '-', rTimes 4 (.cls hexChar), rChar '-', rTimes 4 (.cls hexChar),
           rChar '-', rTimes 12 (.cls hexChar)])
    [.lit "/\x7buuid\x7d"] n
  let n := pyReSubNoRef (rSeq [rChar '/', rTimes 24 (.cls hexChar)]) [.lit "/\x7bobject_id\x7d"] n
  let n := pyReSubNoRef (rSeq [rChar '/', rTimes 32 (.cls hexChar)]) [.lit "/\x7bhash\x7d"] n
  -- `normalized.split("?")[0]`: everything before the first `?`
  ⟨(splitAtFirst (fun c => c = '?') n.data).1⟩

/-! ## HTTP client wrapper (solview/instrumentation/http.py) -/

/-- What the http wrapper reads off the `self` argument: the `base_url`
attribute (`none` models a missing attribute) and
`_last_response.status_code` (`none` models `getattr(self,
"_last_response", None)` being `None`). -/
structure HttpSelf where
  baseUrl : Option String
  lastResponseStatus : Option Int
deriving DecidableEq, Repr

/-- The bound arguments the http wrapper extracts:
`bound.arguments.get("self")` (`none` models `self` being absent or
`None`, on which the later `self.base_url` attribute access raises), and
the `path` / `url` arguments. -/
structure HttpBoundArgs where
  selfArg : Option HttpSelf
  pathArg : Option String
  urlArg : Option String
deriving DecidableEq, Repr

/-- Side effects of the http client wrapper. -/
inductive HttpEvent where
  /-- `HTTP_OUTGOING_REQUESTS_TOTAL.labels(method, status_code, url_host, url_path, app_name, status).inc()` -/
  | outTotalInc (method statusCode urlHost urlPath appName status : String)
  /-- `HTTP_OUTGOING_REQUESTS_DURATION_SECONDS.labels(...).observe(duration)` -/
  | outDurationObs (method urlHost urlPath appName status : String)
  /-- `HTTP_OUTGOING_REQUESTS_ERRORS_TOTAL.labels(..., error_type="exception", ...).inc()` -/
  | outErrorsInc (method urlHost urlPath errorType appName : String)
  /-- `HTTP_OUTGOING_REQUESTS_MEMORY_SAMPLES_TOTAL.labels(...).inc()` -/
  | outMemSamplesInc (method urlHost urlPath appName : String)
  /-- `HTTP_OUTGOING_REQUESTS_MEMORY_BYTES.labels(...).observe(delta)` -/
  | outMemBytesObs (method urlHost urlPath appName status : String) (delta : Int)
  /-- `span.set_attribute(key, value)` (also the span-opening attributes) -/
  | setAttr (key : String) (v : PyVal)
  /-- `span.record_exception(exc)` -/
  | recordException (ty msg : String)
  /-- `span.set_status(...)` -/
  | setStatus (st : SpanStatus)
deriving DecidableEq, Repr

/-- Result of one execution of the http wrapper body. -/
structure HttpRun where
  events : List HttpEvent
  outcome : PyResult
deriving DecidableEq, Repr

/-- One execution of the body of `http_client_instrumentation`'s
`async def wrapper` (http.py lines 93–196).

`bound = none` models a `TypeError` from `sig.bind`.  The wrapper resolves
`self` and `path` before the `try` block: `full_url = self.base_url +
path` raises `AttributeError` (and nothing is recorded, `func` is not
invoked) when `self` is `None`/absent or has no `base_url`.  The `finally`
block contains no `return`, so exceptions from `func` propagate. -/
def httpWrapperBody {α : Type} (operation appName : String)
    (profileMemory recording : Bool) (t1 t2 : Int)
    (bound : Option HttpBoundArgs)
    (func : PyFunc α) (args : α) : HttpRun :=
  match bound with
  | none => { events := [], outcome := .exn "TypeError" "missing a required argument" }
  | some b =>
    -- path = bound.arguments.get("path", "") or bound.arguments.get("url", "")
    let path := let p := b.pathArg.getD ""; if p = "" then b.urlArg.getD "" else p
    match b.selfArg with
    | none =>
        { events := [],
          outcome := .exn "AttributeError" "'NoneType' object has no attribute 'base_url'" }
    | some selfObj =>
      match selfObj.baseUrl with
      | none =>
          { events := [], outcome := .exn "AttributeError" "object has no attribute 'base_url'" }
      | some baseUrl =>
        let fullUrl := baseUrl ++ path
        let parsedUrl := pyUrlparse fullUrl
        let urlHost := if parsedUrl.netloc = "" then "unknown" else parsedUrl.netloc
        let urlPath := if parsedUrl.path = "" then "/" else parsedUrl.path
        let normalizedPath := normalizeUrlPath urlPath
        let method := pyUpper operation
        let memoryProfiler := (MemoryProfiler.init profileMemory).measureP t1 t2
        let openEvents : List HttpEvent :=
          [.setAttr "http.method" (.str method),
           .setAttr "http.url" (.str fullUrl),
           .setAttr "http.scheme" (.str parsedUrl.scheme),
           .setAttr "http.host" (.str urlHost),
           .setAttr "http.target"
             (.str (parsedUrl.path ++ (if parsedUrl.query ≠ "" then "?" ++ parsedUrl.query else "")))] ++
          (if recording then [.setAttr "memory.sampling.enabled" (.bool profileMemory)] else [])
        let callRes := awaitCall func args
        let success : Bool := match callRes with | .ok _ => true | .exn _ _ => false
        let tryEvents :=
          match callRes with
          | .ok _ => [HttpEvent.setStatus .ok]
          | .exn ty msg => [HttpEvent.recordException ty msg, HttpEvent.setStatus (.error msg)]
        let status := if success then "success" else "error"
        let statusCode :=
          match selfObj.lastResponseStatus with
          | some c => toString c
          | none => "exception"
        let deltaEvents : List HttpEvent :=
          if ¬profileMemory then []
          else
            [.outMemSamplesInc method urlHost normalizedPath appName] ++
            match memoryProfiler.getMemoryDelta with
            | none =>
                if recording then
                  [.setAttr "memory.sampled" (.bool true),
                   .setAttr "memory.delta_available" (.bool false)]
                else []
            | some delta =>
                if delta ≤ 0 then
                  if recording then
                    [.setAttr "memory.sampled" (.bool true),
                     .setAttr "memory.delta_bytes" (.int delta),
                     .setAttr "memory.delta_ignored" (.bool true)]
                  else []
                else
                  [.outMemBytesObs method urlHost normalizedPath appName status delta] ++
                  (if recording then
                    [.setAttr "memory.delta_bytes" (.int delta),
                     .setAttr "memory.sampled" (.bool true),
                     .setAttr "memory.delta_ignored" (.bool false),
                     .setAttr "memory.delta_available" (.bool true)]
                   else [])
        let finallyEvents :=
          [HttpEvent.outTotalInc method statusCode urlHost normalizedPath appName status,
           HttpEvent.outDurationObs method urlHost normalizedPath appName status] ++
          (if success then []
           else [HttpEvent.outErrorsInc method urlHost normalizedPath "exception" appName]) ++
          deltaEvents
        { events := openEvents ++ tryEvents ++ finallyEvents, outcome := callRes }

/-! ## `SolviewPrometheusMiddleware` (solview/metrics/exporters.py)

Starlette route matching is modelled for routes whose path template is a
sequence of `/`-separated segments, each either a literal or a `{param}`
placeholder; Starlette compiles a placeholder (with the default `str`
convertor) to `[^/]+`, i.e. it matches exactly one non-empty segment. -/

/-- One segment of a route template. -/
inductive Seg where
  | lit (s : String)
  | param (name : String)
deriving DecidableEq, Repr

/-- A registered route, as its list of template segments. -/
structure AppRoute where
  segs : List Seg
deriving DecidableEq, Repr

/-- The `route.path` string, e.g. `/api/catalog/products/{product_id}`. -/
def AppRoute.pathStr (r : AppRoute) : String :=
  r.segs.foldl
    (fun acc s =>
      acc ++ "/" ++ match s with
                    | .lit t => t
                    | .param n => "\x7b" ++ n ++ "\x7d")
    ""

/-- Split a character list at every occurrence of `c` (Python
`str.split(c)`: n separators yield n+1 parts, empty parts included). -/
def splitChar (c : Char) : List Char → List (List Char)
  | [] => [[]]
  | x :: rest =>
      if x = c then [] :: splitChar c rest
      else
        match splitChar c rest with
        | [] => [[x]]
        | g :: gs => (x :: g) :: gs

/-- Split a URL path on `/`, dropping the leading empty segment. -/
def pathSegs (p : String) : List String :=
  ((splitChar '/' p.data).map (fun l => (⟨l⟩ : String))).drop 1

/-- Segment-wise matching of a concrete path against template segments:
a literal matches itself, a `{param}` matches any non-empty segment. -/
def segsMatch : List Seg → List String → Bool
  | [], [] => true
  | .lit t :: ts, s :: ss => if s = t then segsMatch ts ss else false
  | .param _ :: ts, s :: ss => if s ≠ "" then segsMatch ts ss else false
  | _, _ => false

/-- `route.matches(scope) == Match.FULL` for the modelled route shapes. -/
def routeMatchesFull (r : AppRoute) (urlPath : String) : Bool :=
  segsMatch r.segs (pathSegs urlPath)

/-- `SolviewPrometheusMiddleware.get_path_template(request)`: the first
registered route that fully matches gives `(route.path, True)`; otherwise
`(request.url.path, False)`. -/
def getPathTemplate (routes : List AppRoute) (urlPath : String) : String × Bool :=
  match routes.find? (fun r => routeMatchesFull r urlPath) with
  | some r => (r.pathStr, true)
  | none => (urlPath, false)

/-- The result of `call_next(request)`: a response with a status code, or
an exception (by type name). -/
inductive HandlerResult where
  | response (status : Nat)
  | exc (ty : String)
deriving DecidableEq, Repr

/-- What `dispatch` delivers to its caller. -/
inductive MwOutcome where
  | returned (status : Nat)
  | raised (ty : String)
deriving DecidableEq, Repr

/-- Metric side effects of `dispatch`, in program order. -/
inductive MwEvent where
  /-- `METRIC_REQUESTS.labels(method, path, service_name).inc()` -/
  | requestsInc (method path serviceName : String)
  /-- `METRIC_RESPONSES.labels(method, path, status_code, service_name).inc()` -/
  | responsesInc (method path : String) (statusCode : Nat) (serviceName : String)
  /-- `METRIC_REQUESTS_IN_PROGRESS.labels(...).inc()` -/
  | inProgressInc (method path serviceName : String)
  /-- `METRIC_REQUESTS_IN_PROGRESS.labels(...).dec()` -/
  | inProgressDec (method path serviceName : String)
  /-- `METRIC_EXCEPTIONS.labels(method, path, exception_type, service_name).inc()` -/
  | exceptionsInc (method path excType serviceName : String)
  /-- `METRIC_REQUESTS_PROCESSING_TIME.labels(...).observe(dt, exemplar?)` -/
  | durationObs (method path serviceName : String) (exemplarTraceId : Option String)
deriving DecidableEq, Repr

/-- One execution of `SolviewPrometheusMiddleware.dispatch` (exporters.py
lines 41–79).

`traceId` models the OpenTelemetry current-span context: `some t` when a
span with a non-zero trace id is current (`t` its formatted id), `none`
otherwise — in which case no exemplar is attached.

For an unhandled path the request is forwarded with no metric recording.
Otherwise: in-progress and request counters on entry; on handler
exception the exceptions counter, status forced to 500, and the exception
re-raised (`raise e from None` — same exception object) after the
`finally` block records the response counter and decrements in-progress;
on normal completion the duration histogram (with the exemplar when a
trace id exists) before the same `finally` accounting. -/
def middlewareDispatch (routes : List AppRoute) (method urlPath serviceName : String)
    (handler : HandlerResult) (traceId : Option String) :
    List MwEvent × MwOutcome :=
  let (path, isHandledPath) := getPathTemplate routes urlPath
  if ¬isHandledPath then
    ([], match handler with
         | .response st => .returned st
         | .exc ty => .raised ty)
  else
    let entry := [MwEvent.inProgressInc method path serviceName,
                  MwEvent.requestsInc method path serviceName]
    match handler with
    | .exc ty =>
        (entry ++
         [MwEvent.exceptionsInc method path ty serviceName,
          MwEvent.responsesInc method path 500 serviceName,
          MwEvent.inProgressDec method path serviceName],
         .raised ty)
    | .response st =>
        (entry ++
         [MwEvent.durationObs method path serviceName traceId,
          MwEvent.responsesInc method path st serviceName,
          MwEvent.inProgressDec method path serviceName],
         .returned st)

/-! ## Structured log sink (solview/solview_logging/sinks.py) -/

/-- A JSON-like value (what `orjson.dumps` serializes). -/
inductive JVal where
  | null
  | bool (b : Bool)
  | num (n : Int)
  | str (s : String)
  | arr (items : List JVal)
  | obj (fields : List (String × JVal))

/-- Python truthiness of the values modelled (used by
`DataMasker(ignore_mask=...)` on the popped `ignore_mask` extra). -/
def jTruthy : JVal → Bool
  | .null => false
  | .bool b => b
  | .num n => n ≠ 0
  | .str s => s ≠ ""
  | .arr items => ¬items.isEmpty
  | .obj fields => ¬fields.isEmpty

/-- Association-list lookup (Python `dict.get`). -/
def jGet (key : String) : List (String × JVal) → Option JVal
  | [] => none
  | (k, v) :: rest => if k = key then some v else jGet key rest

/-- Remove a key (the removal half of Python `dict.pop`). -/
def jRemove (key : String) : List (String × JVal) → List (String × JVal)
  | [] => []
  | (k, v) :: rest => if k = key then rest else (k, v) :: jRemove key rest

/-- Masking of the items of a list value inside `_mask_dict_values`: only
string items are masked; every other item — including a nested dict — is
left untouched. -/
def maskListItems : List JVal → List JVal
  | [] => []
  | .str s :: rest => .str (dmRun s) :: maskListItems rest
  | v :: rest => v :: maskListItems rest

mutual

/-- The per-field recursion of `_mask_dict_values`: each value is masked
by `maskFieldValue`. -/
def maskFields : List (String × JVal) → List (String × JVal)
  | [] => []
  | (k, v) :: rest => (k, maskFieldValue v) :: maskFields rest

/-- One value of `_mask_dict_values`'s dict: mask strings, recurse into
dicts, apply `maskListItems` to lists, leave everything else unchanged. -/
def maskFieldValue : JVal → JVal
  | .str s => .str (dmRun s)
  | .obj fields => .obj (maskFields fields)
  | .arr items => .arr (maskListItems items)
  | v => v

end

/-- `_mask_dict_values(data, masker)` (sinks.py lines 9–36): identity when
`masker.ignore_mask` is set, else the recursive masking `maskFields`. -/
def maskDictValues (ignoreMask : Bool) (data : List (String × JVal)) :
    List (String × JVal) :=
  if ignoreMask then data else maskFields data

/-- Python `v == "lit"` for a JSON value: true only for the equal string. -/
def jIsStr (v : JVal) (lit : String) : Bool :=
  match v with
  | .str t => t = lit
  | _ => false

/-- The fields of a loguru `record` that `ecs_sink` reads.  `time` is the
already-`strftime`-formatted timestamp, `elapsedNs` the value of
`int(record["elapsed"].total_seconds() * 1e9)`, and `exception` the
optional pair (type `__name__`, `str(value)`). -/
structure LogRecord where
  time : String
  elapsedNs : Int
  levelName : String
  message : String
  extra : List (String × JVal)
  filePath : String
  fileName : String
  line : Int
  functionName : String
  moduleName : String
  loggerName : String
  processId : Int
  processName : String
  threadId : Int
  threadName : String
  exception : Option (String × String)

/-- The settings fields `ecs_sink` reads. -/
structure SinkSettings where
  environment : String
  domain : String
  serviceName : String
  subdomain : String
  version : String

/-- The JSON object `ecs_sink` builds and writes (sinks.py lines 50–110),
field for field in construction order; the `error` field is appended only
when the record carries an exception, with its message masked and its
type name taken verbatim from `type.__name__`. -/
def ecsSink (record : LogRecord) (settings : SinkSettings) : JVal :=
  let ignoreMask := jTruthy ((jGet "ignore_mask" record.extra).getD (.bool false))
  let extra := jRemove "ignore_mask" record.extra
  let traceId := (jGet "trace_id" extra).getD (.str "N/A")
  let spanId := (jGet "span_id" extra).getD (.str "N/A")
  let base : List (String × JVal) :=
    [("@timestamp", .str record.time),
     ("event", .obj [("created", .str record.time), ("duration", .num record.elapsedNs)]),
     ("labels", .obj (maskDictValues ignoreMask extra)),
     ("level", .str (pyLower record.levelName)),
     ("message", .str record.message),
     ("trace_id", if jIsStr traceId "N/A" then .null else traceId),
     ("span_id", if jIsStr spanId "N/A" then .null else spanId),
     ("log", .obj
        [("file", .obj [("path", .str record.filePath)]),
         ("level", .str (pyLower record.levelName)),
         ("logger", .str record.loggerName),
         ("module", .str record.moduleName),
         ("origin", .obj
            [("file", .obj [("line", .num record.line), ("name", .str record.fileName)]),
             ("function", .str record.functionName)])]),
     ("process", .obj
        [("pid", .num record.processId),
         ("name", .str record.processName),
         ("thread", .obj [("id", .num record.threadId), ("name", .str record.threadName)])]),
     ("service", .obj
        [("environment", .str settings.environment),
         ("domain", .str settings.domain),
         ("name", .str settings.serviceName),
         ("subdomain", .str settings.subdomain),
         ("version", .str settings.version)])]
  match record.exception with
  | none => .obj base
  | some (excType, excMsg) =>
      .obj (base ++
        [("error", .obj
           [("message", .str (if ignoreMask then excMsg else dmRun excMsg)),
            ("type", .str excType)])])

/-- Top-level field lookup on a JSON object. -/
def jField (v : JVal) (key : String) : Option JVal :=
  match v with
  | .obj fs => jGet key fs
  | _ => none

/-!  # Theorems

## Event-kind predicates -/

/-- Is a business event a total-counter increment? -/
def isBizTotalInc : BizEvent → Bool
  | .totalInc .. => true
  | _ => false

/-- Is a business event a duration-histogram observation? -/
def isBizDurationObs : BizEvent → Bool
  | .durationObs .. => true
  | _ => false

/-- Is a business event a memory-samples-counter increment? -/
def isBizMemSamples : BizEvent → Bool
  | .memSamplesInc .. => true
  | _ => false

/-- Is a business event a memory-bytes-histogram observation? -/
def isBizMemBytes : BizEvent → Bool
  | .memBytesObs .. => true
  | _ => false

/-- The status label the wrapper computes from an outcome. -/
def statusOf (r : PyResult) : String :=
  match r with
  | .ok _ => "success"
  | .exn _ _ => "error"

/-- The inputs of one invocation of a wrapped business operation (with
arguments specialised to a Python value). -/
structure BizInvocation where
  operation : String
  appName : String
  profileMemory : Bool
  recording : Bool
  t1 : Int
  t2 : Int
  func : PyFunc PyVal
  args : PyVal

/-- Run one invocation. -/
def runBizInvocation (i : BizInvocation) : WrapperRun :=
  businessWrapperBody i.operation i.appName i.profileMemory i.recording i.t1 i.t2 i.func i.args

/-- Is a kafka event a producer-errors-counter increment? -/
def isKafkaErrorsInc : KafkaEvent → Bool
  | .producerErrorsInc .. => true
  | _ => false

/-- Is a kafka event a producer-duration observation? -/
def isKafkaDurationObs : KafkaEvent → Bool
  | .producerDurationObs .. => true
  | _ => false

/-- Is an http event a duration-histogram observation? -/
def isHttpDurationObs : HttpEvent → Bool
  | .outDurationObs .. => true
  | _ => false

/-- Is a middleware event a requests-total increment? -/
def isMwRequestsInc : MwEvent → Bool
  | .requestsInc .. => true
  | _ => false

/-- Is a middleware event a responses-total increment? -/
def isMwResponsesInc : MwEvent → Bool
  | .responsesInc .. => true
  | _ => false

/-- Is a middleware event an in-progress-gauge increment? -/
def isMwInProgressInc : MwEvent → Bool
  | .inProgressInc .. => true
  | _ => false

/-- Is a middleware event an in-progress-gauge decrement? -/
def isMwInProgressDec : MwEvent → Bool
  | .inProgressDec .. => true
  | _ => false

/-- Is a middleware event an exceptions-total increment? -/
def isMwExceptionsInc : MwEvent → Bool
  | .exceptionsInc .. => true
  | _ => false

/-- Is a middleware event a duration-histogram observation? -/
def isMwDurationObs : MwEvent → Bool
  | .durationObs .. => true
  | _ => false

/-- A representative subset of the demo application's registered routes
(`demo-app/src/app/application/app_builder.py` mounts the health router
without a prefix and the catalog router under `/api/catalog`; catalog.py
registers `/products`, `/products/{product_id}` and `/search`). -/
def demoRoutes : List AppRoute :=
  [⟨[.lit "health"]⟩,
   ⟨[.lit "metrics"]⟩,
   ⟨[.lit "api", .lit "catalog", .lit "products"]⟩,
   ⟨[.lit "api", .lit "catalog", .lit "products", .param "product_id"]⟩,
   ⟨[.lit "api", .lit "catalog", .lit "search"]⟩]

/-- A concrete log record: an attached `ValueError` whose message holds an
e-mail address, a label holding a CPF, and no ambient trace context. -/
def sampleRecord : LogRecord :=
  { time := "2026-01-01T00:00:00.000000Z", elapsedNs := 5, levelName := "INFO",
    message := "hello", extra := [("user", .str "cpf 12345678909")],
    filePath := "/app/x.py", fileName := "x.py", line := 10, functionName := "f",
    moduleName := "m", loggerName := "lg", processId := 1,
    processName := "MainProcess", threadId := 2, threadName := "MainThread",
    exception := some ("ValueError", "mail joao@example.com") }

/-- Concrete sink settings. -/
def sampleSettings : SinkSettings :=
  { environment := "prd", domain := "d", serviceName := "svc", subdomain := "sd",
    version := "1.0.1" }

/-! ## Helper lemmas about `generateDeltaMetrics` -/

/-- The logging masker's `re.sub` chain never raises: every template's
group references are within its pattern's group count. -/
theorem dataMaskerSub_ok (s : String) : dataMaskerSub s = .ok (dmRun s) := rfl



/-- `generate_delta_metrics` never increments the total counter. -/
theorem gdm_filter_totalInc (pm : Bool) (mp : MemoryProfiler) (rec : Bool)
    (st op app : String) :
    (generateDeltaMetrics pm mp rec st op app).filter isBizTotalInc = [] := by
  unfold generateDeltaMetrics
  cases pm <;> simp
  rcases mp.getMemoryDelta with _ | d <;> cases rec <;>
    simp [isBizTotalInc] <;> split_ifs <;> simp [isBizTotalInc]

/-- `generate_delta_metrics` never observes the duration histogram. -/
theorem gdm_filter_durationObs (pm : Bool) (mp : MemoryProfiler) (rec : Bool)
    (st op app : String) :
    (generateDeltaMetrics pm mp rec st op app).filter isBizDurationObs = [] := by
  unfold generateDeltaMetrics
  cases pm <;> simp
  rcases mp.getMemoryDelta with _ | d <;> cases rec <;>
    simp [isBizDurationObs] <;> split_ifs <;> simp [isBizDurationObs]

/-- The memory-samples counter is incremented exactly once when sampling
was active, never otherwise. -/
theorem gdm_filter_memSamples (pm : Bool) (mp : MemoryProfiler) (rec : Bool)
    (st op app : String) :
    (generateDeltaMetrics pm mp rec st op app).filter isBizMemSamples =
      if pm then [.memSamplesInc op app] else [] := by
  unfold generateDeltaMetrics
  cases pm <;> simp
  rcases mp.getMemoryDelta with _ | d <;> cases rec <;>
    simp [isBizMemSamples] <;> split_ifs <;> simp [isBizMemSamples]

/-- The memory-bytes histogram is observed exactly when sampling was
active and the computed delta is strictly positive. -/
theorem gdm_filter_memBytes (pm : Bool) (mp : MemoryProfiler) (rec : Bool)
    (st op app : String) :
    (generateDeltaMetrics pm mp rec st op app).filter isBizMemBytes =
      match pm, mp.getMemoryDelta with
      | true, some d => if 0 < d then [.memBytesObs op app st d] else []
      | _, _ => [] := by
  unfold generateDeltaMetrics
  cases pm <;> simp
  rcases mp.getMemoryDelta with _ | d
  · cases rec <;> simp [isBizMemBytes]
  · by_cases h : d ≤ 0
    · have h2 : ¬(0 : Int) < d := by omega
      cases rec <;> simp [isBizMemBytes, h, h2]
    · have h2 : (0 : Int) < d := by omega
      cases rec <;> simp [isBizMemBytes, h, h2]

/-! ## C3, C4: business-wrapper metric invariants -/

/-- Per-invocation: the total counter is incremented exactly once and the
duration histogram observed exactly once, with the same labels. -/
theorem business_total_once {α : Type} (operation appName : String)
    (profileMemory recording : Bool) (t1 t2 : Int) (func : PyFunc α) (args : α) :
    (businessWrapperBody operation appName profileMemory recording t1 t2 func args).events.filter
        isBizTotalInc =
      [.totalInc operation appName
        (statusOf (businessWrapperBody operation appName profileMemory recording t1 t2 func args).outcome)] ∧
    (businessWrapperBody operation appName profileMemory recording t1 t2 func args).events.filter
        isBizDurationObs =
      [.durationObs operation appName
        (statusOf (businessWrapperBody operation appName profileMemory recording t1 t2 func args).outcome)] := by
  rcases h : awaitCall func args with v | ⟨ty, msg⟩ <;> cases recording <;>
    simp [businessWrapperBody, h, statusOf, isBizTotalInc, isBizDurationObs,
      gdm_filter_totalInc, gdm_filter_durationObs]

/-- Claim C3: on every exit path of a wrapped business operation — normal
return or exception — the total counter is incremented exactly once and
the duration histogram is observed exactly once, both with the same
`(operation, status)` label pair, where `status` is `"success"` exactly
when the call returned normally; and over any list of invocations the
total-counter increments, summed over both statuses, equal the number of
invocations. -/
theorem business_wrapper_count_duration_invariant :
    (∀ (α : Type) (operation appName : String) (profileMemory recording : Bool)
       (t1 t2 : Int) (func : PyFunc α) (args : α),
       let run := businessWrapperBody operation appName profileMemory recording t1 t2 func args
       let status := statusOf run.outcome
       run.events.filter isBizTotalInc = [.totalInc operation appName status] ∧
       run.events.filter isBizDurationObs = [.durationObs operation appName status] ∧
       (status = "success" ↔ ∃ v, run.outcome = .ok v) ∧
       (status = "error" ↔ ∃ ty msg, run.outcome = .exn ty msg)) ∧
    (∀ invocations : List BizInvocation,
       (invocations.map
         (fun i => ((runBizInvocation i).events.filter isBizTotalInc).length)).sum =
       invocations.length) := by
  constructor
  · intro α operation appName profileMemory recording t1 t2 func args
    refine ⟨(business_total_once ..).1, (business_total_once ..).2, ?_, ?_⟩ <;>
      rcases h : awaitCall func args with v | ⟨ty, msg⟩ <;>
        simp [businessWrapperBody, h, statusOf]
  · intro invocations
    induction invocations with
    | nil => simp
    | cons i rest ih =>
        simp [ih, runBizInvocation, (business_total_once ..).1]
        omega

/-- Claim C4: for every invocation in which memory sampling was active the
memory-samples counter is incremented exactly once (and never otherwise);
the memory-bytes histogram receives an observation exactly when the
computed delta exists and is strictly positive (with the delta as value);
and the computed delta is `max(0, end - start)` when the profiler was
enabled and both measurements are present, `None` when disabled or
incomplete — so a negative raw delta is clamped and never observed. -/
theorem memory_sampling_metrics :
    (∀ (pm : Bool) (mp : MemoryProfiler) (rec : Bool) (st op app : String),
       ((generateDeltaMetrics pm mp rec st op app).filter isBizMemSamples).length =
         (if pm then 1 else 0) ∧
       (generateDeltaMetrics pm mp rec st op app).filter isBizMemBytes =
         (match pm, mp.getMemoryDelta with
          | true, some d => if 0 < d then [.memBytesObs op app st d] else []
          | _, _ => []) ∧
       ((generateDeltaMetrics pm mp rec st op app).filter isBizMemBytes ≠ [] ↔
         pm = true ∧ ∃ d, mp.getMemoryDelta = some d ∧ 0 < d)) ∧
    (∀ s e : Int, (MemoryProfiler.mk true (some s) (some e)).getMemoryDelta =
       some (max 0 (e - s))) ∧
    (∀ (sb eb : Option Int), (MemoryProfiler.mk false sb eb).getMemoryDelta = none) ∧
    (∀ eb : Option Int, (MemoryProfiler.mk true none eb).getMemoryDelta = none) ∧
    (∀ s : Int, (MemoryProfiler.mk true (some s) none).getMemoryDelta = none) ∧
    (∀ (α : Type) (operation appName : String) (recording : Bool)
       (t1 t2 : Int) (func : PyFunc α) (args : α),
       ((businessWrapperBody operation appName true recording t1 t2 func args).events.filter
           isBizMemSamples).length = 1 ∧
       (businessWrapperBody operation appName false recording t1 t2 func args).events.filter
           isBizMemSamples = []) := by
  refine ⟨?_, ?_, ?_, ?_, ?_, ?_⟩
  · intro pm mp rec st op app
    refine ⟨?_, gdm_filter_memBytes .., ?_⟩
    · rw [gdm_filter_memSamples]
      cases pm <;> simp
    · rw [gdm_filter_memBytes]
      cases pm <;> rcases h : mp.getMemoryDelta with _ | d <;> simp [h] <;>
        by_cases hd : 0 < d <;> simp [hd]
  · intro s e
    simp [MemoryProfiler.getMemoryDelta]
  · intro sb eb
    simp [MemoryProfiler.getMemoryDelta]
  · intro eb
    simp [MemoryProfiler.getMemoryDelta]
  · intro s
    simp [MemoryProfiler.getMemoryDelta]
  · intro α operation appName recording t1 t2 func args
    constructor
    · rcases h : awaitCall func args with v | ⟨ty, msg⟩ <;> cases recording <;>
        simp [businessWrapperBody, h, isBizMemSamples,
          MemoryProfiler.init, MemoryProfiler.measureP, MemoryProfiler.startP,
          MemoryProfiler.stopP, MemoryProfiler.getMemoryDelta,
          gdm_filter_memSamples]
    · rcases h : awaitCall func args with v | ⟨ty, msg⟩ <;> cases recording <;>
        simp [businessWrapperBody, h, isBizMemSamples, generateDeltaMetrics]

/-! ## C1: the wrappers are async-only -/

/-- Awaiting a wrapped call of an `async def` operation yields exactly the
operation's own result. -/
theorem awaitCall_async {α : Type} (f : α → PyResult) (a : α) :
    awaitCall (.async f) a = f a := by
  rcases h : f a with v | ⟨ty, msg⟩ <;> simp [awaitCall, callPy, awaitPy, h]

/-- Claim C1, counterexample: the wrapper is an `async def` that
unconditionally awaits `func(...)`, so it is not polymorphic over
synchronous operations.  For the synchronous operation `lambda: 42`
(which returns `42` when called directly), calling the wrapped callable
returns a coroutine — not `42` — and awaiting that coroutine raises
`TypeError` from `await 42` instead of returning `42`. -/
theorem sync_operation_not_transparent :
    (callPy (PyFunc.sync (α := Unit) fun _ => .ok (.int 42)) () = .ok (.int 42)) ∧
    (businessWrapperBody "op" "app" false false 0 0
        (PyFunc.sync (α := Unit) fun _ => .ok (.int 42)) ()).outcome =
      .exn "TypeError" "object can't be used in 'await' expression" ∧
    businessWrapped "op" "app" false false 0 0
        (PyFunc.sync (α := Unit) fun _ => .ok (.int 42)) () ≠ .ok (.int 42) := by
  decide

/-- Claim C1 as amended: the instrumentation wrappers support only
asynchronous operations.  For every async operation and argument list the
awaited wrapped call returns the operation's value and re-raises its
exception with the same type and message (business wrapper always; http
wrapper whenever `self` is present with a `base_url`); for a synchronous
operation the wrapper body awaits the operation's plain return value, so
whenever that value is not a coroutine the wrapper raises `TypeError`
instead of returning it. -/
theorem wrapper_transparent_only_for_async :
    (∀ (α : Type) (op app : String) (pm rec : Bool) (t1 t2 : Int)
       (f : α → PyResult) (args : α),
       (businessWrapperBody op app pm rec t1 t2 (.async f) args).outcome = f args) ∧
    (∀ (α : Type) (op app : String) (pm rec : Bool) (t1 t2 : Int)
       (f : α → PyResult) (args : α) (b : HttpBoundArgs) (selfObj : HttpSelf) (u : String),
       b.selfArg = some selfObj → selfObj.baseUrl = some u →
       (httpWrapperBody op app pm rec t1 t2 (some b) (.async f) args).outcome = f args) ∧
    (∀ (α : Type) (op app : String) (pm rec : Bool) (t1 t2 : Int)
       (f : α → PyResult) (args : α) (v : PyVal),
       f args = .ok v → (∀ w, v ≠ .coroOk w) → (∀ ty m, v ≠ .coroExn ty m) →
       (businessWrapperBody op app pm rec t1 t2 (.sync f) args).outcome =
         .exn "TypeError" "object can't be used in 'await' expression") := by
  refine ⟨?_, ?_, ?_⟩
  · intro α op app pm rec t1 t2 f args
    simp [businessWrapperBody, awaitCall_async]
  · intro α op app pm rec t1 t2 f args b selfObj u hself hbase
    rcases b with ⟨sa, pa, ua⟩
    cases hself
    simp [httpWrapperBody, hbase, awaitCall_async]
  · intro α op app pm rec t1 t2 f args v hv hco hce
    have hawait : awaitCall (.sync f) args =
        .exn "TypeError" "object can't be used in 'await' expression" := by
      cases v with
      | coroOk w => exact absurd rfl (hco w)
      | coroExn ty m => exact absurd rfl (hce ty m)
      | pynone => simp [awaitCall, callPy, awaitPy, hv]
      | int n => simp [awaitCall, callPy, awaitPy, hv]
      | str s => simp [awaitCall, callPy, awaitPy, hv]
      | bool b => simp [awaitCall, callPy, awaitPy, hv]
    simp [businessWrapperBody, hawait]

/-- Witness for `wrapper_transparent_only_for_async` at concrete inputs. -/
theorem wrapper_transparent_only_for_async_witness :
    (httpWrapperBody "get" "app" false false 0 0
        (some ⟨some ⟨some "http://h", none⟩, some "/x", none⟩)
        (PyFunc.async (α := Unit) fun _ => .ok (.int 7)) ()).outcome = .ok (.int 7) ∧
    (businessWrapperBody "op" "app" false false 0 0
        (PyFunc.sync (α := Unit) fun _ => .ok (.int 42)) ()).outcome =
      .exn "TypeError" "object can't be used in 'await' expression" :=
  ⟨wrapper_transparent_only_for_async.2.1 Unit "get" "app" false false 0 0
      (fun _ => .ok (.int 7)) () ⟨some ⟨some "http://h", none⟩, some "/x", none⟩
      ⟨some "http://h", none⟩ "http://h" rfl rfl,
   wrapper_transparent_only_for_async.2.2 Unit "op" "app" false false 0 0
      (fun _ => .ok (.int 42)) () (.int 42) rfl
      (fun _ h => PyVal.noConfusion h) (fun _ _ h => PyVal.noConfusion h)⟩

/-! ## C2: exception path of a wrapped async operation -/

/-- Claim C2: the business wrapper handles a raised `ValueError("x")` as
claimed — error-status counter and duration histogram once each, span
status error with message `"x"`, exception recorded, and the `ValueError`
re-raised; the kafka producer wrapper at the same failing input records
its error counter, span status and duration, but the `return result`
inside its `finally` block swallows the exception whenever memory
profiling is off, returning `None` to the caller instead of re-raising. -/
theorem async_exception_reraise_and_kafka_swallow :
    (let run := businessWrapperBody "op" "app" false true 0 0
        (PyFunc.async (α := Unit) fun _ => .exn "ValueError" "x") ()
     run.outcome = .exn "ValueError" "x" ∧
     run.events.filter isBizTotalInc = [.totalInc "op" "app" "error"] ∧
     run.events.filter isBizDurationObs = [.durationObs "op" "app" "error"] ∧
     (BizEvent.recordException "ValueError" "x") ∈ run.events ∧
     (BizEvent.setStatus (.error "x")) ∈ run.events) ∧
    (let run := kafkaProducerWrapperBody "send" "app" false true 0 0
        (some (some (.str "events"), .str ""))
        (PyFunc.async (α := Unit) fun _ => .exn "ValueError" "x") ()
     run.events.filter isKafkaErrorsInc =
       [.producerErrorsInc (some (.str "events")) "ValueError" "app"] ∧
     run.events.filter isKafkaDurationObs =
       [.producerDurationObs (some (.str "events")) "app" "error"] ∧
     (KafkaEvent.recordException "ValueError" "x") ∈ run.events ∧
     (KafkaEvent.setStatus (.error "x")) ∈ run.events ∧
     run.outcome = .ok .pynone ∧
     run.outcome ≠ .exn "ValueError" "x") := by
  decide

/-! ## C8: label-extraction fallbacks and failure behaviour -/

/-- Claim C8, counterexample: the topic-extraction fallback is the
sentinel `"all_topics"`, not `"unknown"`; and in the http wrapper, label
extraction runs before the call and an argument list whose `self` is
absent makes the wrapper itself raise `AttributeError` — the wrapped
operation (which would return `1`) is never invoked and nothing is
recorded. -/
theorem extraction_fallback_counterexample :
    extractTopicFromArgs [] none = .str "all_topics" ∧
    extractTopicFromArgs [] none ≠ .str "unknown" ∧
    (httpWrapperBody "get" "app" false false 0 0
        (some ⟨none, some "/x", none⟩)
        (PyFunc.async (α := Unit) fun _ => .ok (.int 1)) ()).events = [] ∧
    (httpWrapperBody "get" "app" false false 0 0
        (some ⟨none, some "/x", none⟩)
        (PyFunc.async (α := Unit) fun _ => .ok (.int 1)) ()).outcome =
      .exn "AttributeError" "'NoneType' object has no attribute 'base_url'" := by
  decide

/-- Claim C8 as amended: the topic-extraction helper never fails and never
yields `"unknown"` — its fallback sentinel is `"all_topics"`; the http
wrapper falls back to the sentinel `"unknown"` for the URL-host label
exactly when the parsed URL has no netloc, and for every argument list on
which extraction succeeds (a `self` with a `base_url` is present) it
returns the wrapped operation's own result or raises its exception,
whatever the extraction outcome; but extraction failures themselves are
not harmless: arguments that do not fit the signature (`sig.bind`) or
lack `self`/`base_url` make the wrapper raise before invoking the
operation. -/
theorem extraction_fallback_semantics :
    (∀ (args : List KafkaArg) (kw : Option PyVal),
       extractTopicFromArgs args kw ≠ .str "unknown") ∧
    extractTopicFromArgs [] none = .str "all_topics" ∧
    extractTopicFromArgs [.objPlain, .objPlain] none = .str "all_topics" ∧
    (∀ (α : Type) (op app : String) (pm rec : Bool) (t1 t2 : Int)
       (f : α → PyResult) (args : α) (selfObj : HttpSelf) (u : String)
       (pa ua : Option String),
       selfObj.baseUrl = some u →
       let b : HttpBoundArgs := ⟨some selfObj, pa, ua⟩
       let path := let p := pa.getD ""; if p = "" then ua.getD "" else p
       let parsed := pyUrlparse (u ++ path)
       let run := httpWrapperBody op app pm rec t1 t2 (some b) (.async f) args
       run.outcome = f args ∧
       run.events.filter isHttpDurationObs =
         [.outDurationObs (pyUpper op)
            (if parsed.netloc = "" then "unknown" else parsed.netloc)
            (normalizeUrlPath (if parsed.path = "" then "/" else parsed.path))
            app (if (match f args with | .ok _ => true | .exn _ _ => false)
                 then "success" else "error")]) ∧
    (∀ (α : Type) (op app : String) (pm rec : Bool) (t1 t2 : Int)
       (func : PyFunc α) (args : α),
       httpWrapperBody op app pm rec t1 t2 none func args =
         ⟨[], .exn "TypeError" "missing a required argument"⟩ ∧
       kafkaProducerWrapperBody op app pm rec t1 t2 none func args =
         ⟨[], .exn "TypeError" "missing a required argument"⟩ ∧
       (∀ pa ua, httpWrapperBody op app pm rec t1 t2 (some ⟨none, pa, ua⟩) func args =
         ⟨[], .exn "AttributeError" "'NoneType' object has no attribute 'base_url'"⟩) ∧
       (∀ ls pa ua, httpWrapperBody op app pm rec t1 t2 (some ⟨some ⟨none, ls⟩, pa, ua⟩) func args =
         ⟨[], .exn "AttributeError" "object has no attribute 'base_url'"⟩)) := by
  refine ⟨?_, by decide, by decide, ?_, ?_⟩
  · intro args kw
    have key : ∀ x : PyVal,
        (if x ≠ .str "unknown" then x else .str "all_topics") ≠ .str "unknown" := by
      intro x
      by_cases h : x = .str "unknown" <;> simp [h]
    exact key _
  · intro α op app pm rec t1 t2 f args selfObj u pa ua hbase
    rcases selfObj with ⟨bu, ls⟩
    cases hbase
    rcases h : f args with v | ⟨ty, msg⟩ <;> cases pm <;> cases rec <;>
      simp [httpWrapperBody, awaitCall_async, h, isHttpDurationObs,
        MemoryProfiler.init, MemoryProfiler.measureP, MemoryProfiler.startP,
        MemoryProfiler.stopP, MemoryProfiler.getMemoryDelta] <;>
      split_ifs <;> simp [isHttpDurationObs]
  · intro α op app pm rec t1 t2 func args
    refine ⟨rfl, rfl, fun pa ua => rfl, fun ls pa ua => rfl⟩

/-- Witness for `extraction_fallback_semantics` at concrete inputs. -/
theorem extraction_fallback_semantics_witness :
    (httpWrapperBody "get" "app" false false 0 0
        (some ⟨some ⟨some "relative-base", none⟩, some "/x", none⟩)
        (PyFunc.async (α := Unit) fun _ => .ok (.int 7)) ()).events.filter
        isHttpDurationObs =
      [.outDurationObs "GET" "unknown" "relative-base/x" "app" "success"] :=
  ((extraction_fallback_semantics.2.2.2.1 Unit "get" "app" false false 0 0
      (fun _ => .ok (.int 7)) () ⟨some "relative-base", none⟩ "relative-base"
      (some "/x") none rfl).2).trans (by decide)

/-! ## C6, C7: request-metrics middleware -/

/-- Claim C7: a request whose concrete path matches no registered route
template produces no metric events at all and is still forwarded (the
middleware returns `call_next`'s own outcome); and concrete paths
differing only in the value of a parameter segment resolve to the same
template — in particular `/api/catalog/products/123` and
`/api/catalog/products/456` both resolve to
`/api/catalog/products/{product_id}`, while `/does-not-exist` resolves to
no template. -/
theorem unregistered_path_no_metric_effects :
    (∀ (routes : List AppRoute) (method urlPath serviceName : String)
       (handler : HandlerResult) (traceId : Option String),
       (getPathTemplate routes urlPath).2 = false →
       (middlewareDispatch routes method urlPath serviceName handler traceId).1 = [] ∧
       (middlewareDispatch routes method urlPath serviceName handler traceId).2 =
         (match handler with
          | .response st => .returned st
          | .exc ty => .raised ty)) ∧
    (∀ (segs : List Seg) (pre post : List String) (s1 s2 : String),
       s1 ≠ "" → s2 ≠ "" →
       segsMatch segs (pre ++ s1 :: post) = true →
       (∃ i, segs[pre.length]? = some (.param i)) →
       segsMatch segs (pre ++ s2 :: post) = true) ∧
    getPathTemplate demoRoutes "/api/catalog/products/123" =
      ("/api/catalog/products/\x7bproduct_id\x7d", true) ∧
    getPathTemplate demoRoutes "/api/catalog/products/456" =
      ("/api/catalog/products/\x7bproduct_id\x7d", true) ∧
    getPathTemplate demoRoutes "/does-not-exist" = ("/does-not-exist", false) := by
  refine ⟨?_, ?_, by decide, by decide, by decide⟩
  · intro routes method urlPath serviceName handler traceId h
    rcases hg : getPathTemplate routes urlPath with ⟨path, handled⟩
    rw [hg] at h
    simp at h
    subst h
    cases handler <;> simp [middlewareDispatch, hg]
  · intro segs pre post s1 s2 h1 h2 hmatch hparam
    induction pre generalizing segs with
    | nil =>
        rcases hparam with ⟨i, hi⟩
        cases segs with
        | nil => simp at hi
        | cons sg rest =>
            simp at hi
            subst hi
            simpa [segsMatch, h1, h2] using hmatch
    | cons p ps ih =>
        cases segs with
        | nil => simp [segsMatch] at hmatch
        | cons sg rest =>
            rcases hparam with ⟨i, hi⟩
            simp at hi
            cases sg with
            | lit t =>
                by_cases ht : p = t
                · subst ht
                  simp [segsMatch] at hmatch ⊢
                  exact ih rest hmatch ⟨i, hi⟩
                · simp [segsMatch, ht] at hmatch
            | param n =>
                by_cases hp : p = ""
                · simp [segsMatch, hp] at hmatch
                · simp [segsMatch, hp] at hmatch ⊢
                  exact ih rest hmatch ⟨i, hi⟩

/-- Witness for `unregistered_path_no_metric_effects` at concrete inputs. -/
theorem unregistered_path_no_metric_effects_witness :
    (middlewareDispatch demoRoutes "GET" "/does-not-exist" "svc" (.response 404) none).1 = [] ∧
    segsMatch [.lit "api", .lit "catalog", .lit "products", .param "product_id"]
      (["api", "catalog", "products"] ++ "456" :: []) = true :=
  ⟨(unregistered_path_no_metric_effects.1 demoRoutes "GET" "/does-not-exist" "svc"
      (.response 404) none (by decide)).1,
   unregistered_path_no_metric_effects.2.1
      [.lit "api", .lit "catalog", .lit "products", .param "product_id"]
      ["api", "catalog", "products"] [] "123" "456"
      (by decide) (by decide) (by decide) ⟨"product_id", by decide⟩⟩

/-- Claim C6, counterexample: when the handler raises, `dispatch` records
no duration observation at all (the `observe` sits in the `else` branch,
which is skipped on exception), contradicting "records the duration
histogram on exit regardless of outcome". -/
theorem middleware_no_duration_on_exception :
    (middlewareDispatch demoRoutes "GET" "/api/catalog/products/123" "svc"
        (.exc "ValueError") (some "abc123")).1.filter isMwDurationObs = [] ∧
    (middlewareDispatch demoRoutes "GET" "/api/catalog/products/123" "svc"
        (.exc "ValueError") (some "abc123")).2 = .raised "ValueError" := by
  decide

/-- Claim C6 as amended: for every handled request the middleware
increments requests-total and the in-flight gauge on entry, decrements the
gauge and increments responses-total keyed by the final status on exit —
with status 500 and an exceptions-total increment when the handler raises,
the exception being propagated after that accounting — and observes the
duration histogram exactly once on normal completion (with the trace-id
exemplar exactly when a valid trace context exists), but not on the
exception path. -/
theorem middleware_accounting :
    ∀ (routes : List AppRoute) (method urlPath serviceName : String)
      (handler : HandlerResult) (traceId : Option String),
      (getPathTemplate routes urlPath).2 = true →
      let path := (getPathTemplate routes urlPath).1
      let events := (middlewareDispatch routes method urlPath serviceName handler traceId).1
      let outcome := (middlewareDispatch routes method urlPath serviceName handler traceId).2
      events.filter isMwRequestsInc = [.requestsInc method path serviceName] ∧
      events.filter isMwInProgressInc = [.inProgressInc method path serviceName] ∧
      events.filter isMwInProgressDec = [.inProgressDec method path serviceName] ∧
      (match handler with
       | .response st =>
           events.filter isMwResponsesInc = [.responsesInc method path st serviceName] ∧
           events.filter isMwDurationObs = [.durationObs method path serviceName traceId] ∧
           events.filter isMwExceptionsInc = [] ∧
           outcome = .returned st
       | .exc ty =>
           events.filter isMwResponsesInc = [.responsesInc method path 500 serviceName] ∧
           events.filter isMwDurationObs = [] ∧
           events.filter isMwExceptionsInc = [.exceptionsInc method path ty serviceName] ∧
           outcome = .raised ty) := by
  intro routes method urlPath serviceName handler traceId h
  rcases hg : getPathTemplate routes urlPath with ⟨path, handled⟩
  rw [hg] at h
  simp at h
  subst h
  cases handler <;>
    simp [middlewareDispatch, hg, isMwRequestsInc, isMwInProgressInc, isMwInProgressDec,
      isMwResponsesInc, isMwDurationObs, isMwExceptionsInc]

/-- Witness for `middleware_accounting` at a concrete handled request. -/
theorem middleware_accounting_witness :
    (middlewareDispatch demoRoutes "GET" "/api/catalog/products/123" "svc"
        (.exc "ValueError") none).1.filter isMwResponsesInc =
      [.responsesInc "GET" "/api/catalog/products/\x7bproduct_id\x7d" 500 "svc"] := by
  have h := middleware_accounting demoRoutes "GET" "/api/catalog/products/123" "svc"
      (.exc "ValueError") none (by decide)
  calc (middlewareDispatch demoRoutes "GET" "/api/catalog/products/123" "svc"
        (.exc "ValueError") none).1.filter isMwResponsesInc
      = [.responsesInc "GET"
          (getPathTemplate demoRoutes "/api/catalog/products/123").1 500 "svc"] := h.2.2.2.1
    _ = [.responsesInc "GET" "/api/catalog/products/\x7bproduct_id\x7d" 500 "svc"] := by decide

/-! ## C5, C10: masking -/

/-- The sixth `re.sub` of the common masker pairs a zero-group pattern
with a replacement referencing group 1; since `re.sub` validates the
template before scanning, the chain raises `re.error` for every string
input, whatever the string. -/
theorem commonMaskSub_invalid (s : String) :
    commonMaskSub s = .error (.invalidGroupReference 1) := rfl

set_option maxRecDepth 400000 in
/-- Claim C5: masking is *not* idempotent, and the common masker crashes.
`mask_text` maps `"Bearer 123456789"` (no Bearer rule fires: the token is
shorter than 10 chars; the ssn rule rewrites it) to
`"Bearer 123-XX-6789"`, and a second application maps that to `"Bearer
***MASKED***"` — the ssn mask `123-XX-6789` is 11 characters of
`[A-Za-z0-9\-_]`, which the bearer rule then matches.  The common
`mask_sensitive_data` raises `re.error("invalid group reference")` on
every string input (so its idempotence equation never holds), while both
functions do return non-string inputs unchanged. -/
theorem mask_text_not_idempotent :
    maskText (.str "Bearer 123456789") = .str "Bearer 123-XX-6789" ∧
    maskText (maskText (.str "Bearer 123456789")) = .str "Bearer ***MASKED***" ∧
    maskText (maskText (.str "Bearer 123456789")) ≠ maskText (.str "Bearer 123456789") ∧
    (∀ s : String, commonMaskSub s = .error (.invalidGroupReference 1)) ∧
    (∀ n : Int, maskText (.int n) = .int n ∧ commonMaskSensitiveData (.int n) = .ok (.int n)) ∧
    maskText .pynone = .pynone ∧ commonMaskSensitiveData .pynone = .ok .pynone := by
  have h1 : maskText (.str "Bearer 123456789") = .str "Bearer 123-XX-6789" := by
    decide
  have h2 : maskText (.str "Bearer 123-XX-6789") = .str "Bearer ***MASKED***" := by
    decide
  refine ⟨h1, by rw [h1]; exact h2, ?_, commonMaskSub_invalid, fun n => ⟨rfl, rfl⟩, rfl, rfl⟩
  rw [h1, h2]
  decide

/-- Claim C10, counterexample: the common masker does not return
`"ab@example.com"` unmasked — it raises `re.error` (its broken
formatted-phone rule is rejected before any matching happens). -/
theorem common_masker_raises_on_short_email :
    commonMaskSensitiveData (.str "ab@example.com") = .error (.invalidGroupReference 1) := rfl

set_option maxRecDepth 400000 in
/-- Claim C10 as amended: the *logging* masker returns e-mail addresses
whose local part has fewer than 3 word characters entirely unmasked (its
e-mail rule `\b(\w{3})\w*(@[\w\.-]+\b)` needs three leading word
characters), while masking longer local parts; the *common* masker never
returns at all on string input — it raises the invalid-group-reference
error — though it does return non-strings unchanged. -/
theorem short_local_part_email_unmasked :
    dmRun "ab@example.com" = "ab@example.com" ∧
    dmRun "a@example.com" = "a@example.com" ∧
    dmRun "ab@x.io" = "ab@x.io" ∧
    dataMaskerMask false (.str "ab@example.com") = .str "ab@example.com" ∧
    dmRun "abc@example.com" = "abc***@example.com" ∧
    dmRun "joao@example.com" = "joa***@example.com" ∧
    (∀ s : String, commonMaskSensitiveData (.str s) = .error (.invalidGroupReference 1)) ∧
    (∀ n : Int, commonMaskSensitiveData (.int n) = .ok (.int n)) := by
  refine ⟨by decide, by decide, by decide, ?_, by decide, by decide, ?_, fun n => rfl⟩
  · have h : dmRun "ab@example.com" = "ab@example.com" := by decide
    simp [dataMaskerMask, h]
  · intro s
    simp [commonMaskSensitiveData, commonMaskSub_invalid, Except.map]

/-! ## C9: structured log sink -/

/-- Claim C9: for every log record the sink builds one JSON object with
the fields `@timestamp`, `level` (lowercased), `message`, `trace_id`,
`span_id`, `labels`, `service.{name,version,environment,domain,subdomain}`
and — exactly when an exception is attached — `error.{message,type}`; the
labels are the recursive masking of the record's extra (after the
`ignore_mask` marker is removed), the error message is masked while the
error type name is preserved verbatim, and an absent trace context gives
an explicit null `trace_id` field (the `"N/A"` sentinel mapped to `None`)
rather than a crash. -/
theorem ecs_sink_schema :
    ∀ (r : LogRecord) (st : SinkSettings),
      let out := ecsSink r st
      let ig := jTruthy ((jGet "ignore_mask" r.extra).getD (.bool false))
      let extra := jRemove "ignore_mask" r.extra
      jField out "@timestamp" = some (.str r.time) ∧
      jField out "level" = some (.str (pyLower r.levelName)) ∧
      jField out "message" = some (.str r.message) ∧
      jField out "labels" = some (.obj (maskDictValues ig extra)) ∧
      jField out "trace_id" =
        some (if jIsStr ((jGet "trace_id" extra).getD (.str "N/A")) "N/A" then .null
              else (jGet "trace_id" extra).getD (.str "N/A")) ∧
      jField out "span_id" =
        some (if jIsStr ((jGet "span_id" extra).getD (.str "N/A")) "N/A" then .null
              else (jGet "span_id" extra).getD (.str "N/A")) ∧
      (jGet "trace_id" extra = none → jField out "trace_id" = some .null) ∧
      jField out "service" =
        some (.obj [("environment", .str st.environment), ("domain", .str st.domain),
                    ("name", .str st.serviceName), ("subdomain", .str st.subdomain),
                    ("version", .str st.version)]) ∧
      (∀ ty msg, r.exception = some (ty, msg) →
         jField out "error" =
           some (.obj [("message", .str (if ig then msg else dmRun msg)),
                       ("type", .str ty)])) ∧
      (r.exception = none → jField out "error" = none) := by
  intro r st
  rcases hexc : r.exception with _ | ⟨ty, msg⟩ <;>
    simp only [ecsSink, hexc] <;>
    refine ⟨rfl, rfl, rfl, rfl, rfl, rfl, ?_, rfl, ?_, ?_⟩
  · intro h
    simp [jField, jGet, h, jIsStr]
  · intro ty msg h
    exact absurd h (by simp)
  · intro h
    rfl
  · intro h
    simp [jField, jGet, h, jIsStr]
  · intro ty2 msg2 h
    injection h with h2
    injection h2 with hty hmsg
    subst hty
    subst hmsg
    rfl
  · intro h
    exact absurd h (by simp)

set_option maxRecDepth 400000 in
/-- Witness for `ecs_sink_schema` at `sampleRecord`: the absent trace
context yields a null `trace_id`, the error message is masked while the
`ValueError` type name is preserved, and the CPF label is redacted. -/
theorem ecs_sink_schema_witness :
    jField (ecsSink sampleRecord sampleSettings) "trace_id" = some .null ∧
    jField (ecsSink sampleRecord sampleSettings) "error" =
      some (.obj [("message", .str "mail joa***@example.com"),
                  ("type", .str "ValueError")]) ∧
    jField (ecsSink sampleRecord sampleSettings) "labels" =
      some (.obj [("user", .str "cpf 123.XXX.XXX-09")]) :=
  have h := ecs_sink_schema sampleRecord sampleSettings
  ⟨h.2.2.2.2.2.2.1 rfl,
   (h.2.2.2.2.2.2.2.2.1 "ValueError" "mail joao@example.com" rfl).trans rfl,
   h.2.2.2.1.trans rfl⟩

end Solview
